import Mathlib

/-!
# Verification of the UiPath MCP Server's authenticated HTTP access layer

A shallow embedding, in Lean 4, of the core of `src/uipath_mcp`:

* `auth.py` — the `TokenCache` (validity window, proactive refresh buffer),
  the double-checked-locking refresh protocol shared by the cloud OAuth and
  on-prem password strategies, and the error translation of `get_token`;
* `client.py` — the `ODataParams` fluent builder, `_folder_headers`,
  `_is_retryable`, the `_request` retry loop (tenacity,
  `stop_after_attempt`, `reraise=True`) and `paginate`;
* `tools/queues.py` — the `list_queues` handler's failure path.

Machine integers are modelled by `Nat`/`Int`; monotonic clock readings by
`Nat` seconds; Python dictionaries by insertion-ordered association lists;
the cooperatively scheduled asyncio coroutines of `get_token` by an
explicit interleaving of the atomic segments between `await` points.
-/

set_option autoImplicit false

namespace UiPathMCP

/-! ## Token cache (`auth.py`, class `TokenCache`)

`access_token`/`expires_at`/`refresh_buffer` mirror the dataclass fields;
`now` stands for `time.monotonic()`, passed explicitly.  Python float
arithmetic on nonnegative whole-second timestamps is mirrored by `Nat`
arithmetic: `now < expires_at - refresh_buffer` with truncated subtraction
agrees with the float comparison whenever `now ≥ 0`. -/

structure TokenCache where
  access_token : String := ""
  expires_at : Nat := 0
  refresh_buffer : Nat := 60
  deriving Repr, DecidableEq

namespace TokenCache

/-- `TokenCache.is_valid` (auth.py:56-60):
`bool(self.access_token) and time.monotonic() < self.expires_at - self.refresh_buffer`. -/
def is_valid (c : TokenCache) (now : Nat) : Bool :=
  c.access_token ≠ "" && now < c.expires_at - c.refresh_buffer

/-- `TokenCache.set` (auth.py:62-64): store the token and
`expires_at = time.monotonic() + expires_in`. -/
def set (c : TokenCache) (token : String) (expires_in : Nat) (now : Nat) : TokenCache :=
  { c with access_token := token, expires_at := now + expires_in }

/-- `TokenCache.clear` (auth.py:66-68). -/
def clear (c : TokenCache) : TokenCache :=
  { c with access_token := "", expires_at := 0 }

end TokenCache

/-- C5: For every token stored with `set(token, expiresIn = E)` at time `now0`,
with the code's `refreshBuffer = 60`, the validity check at time `now0 + t`
reports valid exactly when the token is non-empty and `t` is strictly before
`E - 60` (stated as `t + 60 < E`, avoiding truncated subtraction), hence
invalid at every time from `E - 60` onward; and a cache holding an empty
token is invalid at every time. -/
theorem tokenCache_validity_window
    (c : TokenCache) (tok : String) (E now0 t : Nat)
    (hbuf : c.refresh_buffer = 60) :
    (((c.set tok E now0).is_valid (now0 + t)) = true ↔ (tok ≠ "" ∧ t + 60 < E))
    ∧ (∀ (c' : TokenCache) (now : Nat), c'.access_token = "" → c'.is_valid now = false) := by
  constructor
  · simp only [TokenCache.set, TokenCache.is_valid, hbuf, Bool.and_eq_true,
      decide_eq_true_eq, ne_eq]
    constructor
    · rintro ⟨htok, hlt⟩
      refine ⟨by simpa using htok, ?_⟩
      omega
    · rintro ⟨htok, hlt⟩
      exact ⟨by simpa using htok, by omega⟩
  · intro c' now h
    simp [TokenCache.is_valid, h]

/-- Witness for C5: set a token with lifetime 3600 at time 1000; it is valid
17 seconds later, and any empty-token cache is invalid. -/
theorem tokenCache_validity_window_witness :
    ((({} : TokenCache).set "tok" 3600 1000).is_valid (1000 + 17) = true ↔
      ("tok" ≠ "" ∧ 17 + 60 < 3600))
    ∧ (∀ (c' : TokenCache) (now : Nat), c'.access_token = "" → c'.is_valid now = false) :=
  tokenCache_validity_window {} "tok" 3600 1000 17 rfl

/-! ## Double-checked-locking refresh (`auth.py`, `CloudAuthStrategy.get_token`
and `OnPremAuthStrategy.get_token`, lines 104-146 / 168-198)

Both strategies share the same protocol over the module-level cache:

```
if cache.is_valid: return cache.access_token            -- fast path, no lock
async with cache._lock:
    if cache.is_valid: return cache.access_token        -- re-check under lock
    response = await client.post(...)                   -- the one HTTP call
    cache.set(token, expires_in); return token
```

Under asyncio's cooperative scheduler, a coroutine runs atomically between
`await` points.  The `await`s are: lock acquisition and the HTTP post.  A
caller is therefore a state machine with four control points:

* `start`    — about to run the fast-path check;
* `waitLock` — suspended on `_lock` acquisition;
* `inCall`   — holds the lock, has issued the HTTP post, awaiting it
  (the re-check under the lock and issuing the post are one atomic
  segment, entered when the lock is granted);
* `done r`   — returned the token `r`.

The scenario is modelled at one instant `now` of the monotonic clock (the
claim's scenario: N callers race before any freshly acquired token could
itself expire).  The HTTP response is the pair (`tok`, `E`): the token and
`expires_in` of the single credential-acquisition response. -/

inductive CallerPC where
  | start
  | waitLock
  | inCall
  | done (res : String)
  deriving Repr, DecidableEq

/-- The shared state: the module-level `_token_cache`, its `asyncio.Lock`,
a count of credential-acquisition HTTP calls issued, and each caller's
control point. -/
structure AuthSysState (n : Nat) where
  cache : TokenCache
  lockHeld : Bool
  httpCalls : Nat
  callers : Fin n → CallerPC

/-- One atomic segment of caller `i` of `get_token` (auth.py:104-146).
A caller suspended on the lock (`waitLock`) steps only when the lock is
free; a finished caller does nothing. -/
def stepCaller {n : Nat} (now : Nat) (tok : String) (E : Nat)
    (s : AuthSysState n) (i : Fin n) : AuthSysState n :=
  match s.callers i with
  | .start =>
      if s.cache.is_valid now then
        { s with callers := Function.update s.callers i (.done s.cache.access_token) }
      else
        { s with callers := Function.update s.callers i .waitLock }
  | .waitLock =>
      if s.lockHeld then s
      else if s.cache.is_valid now then
        { s with callers := Function.update s.callers i (.done s.cache.access_token) }
      else
        { s with lockHeld := true, httpCalls := s.httpCalls + 1,
                 callers := Function.update s.callers i .inCall }
  | .inCall =>
      { s with cache := s.cache.set tok E now, lockHeld := false,
               callers := Function.update s.callers i (.done tok) }
  | .done _ => s

/-- Run the interleaving chosen by a scheduler: `sched` lists which caller's
atomic segment runs at each step. -/
def runSched {n : Nat} (now : Nat) (tok : String) (E : Nat)
    (s : AuthSysState n) (sched : List (Fin n)) : AuthSysState n :=
  sched.foldl (stepCaller now tok E) s

/-- Initial state: `n` callers all about to enter `get_token`, lock free,
no HTTP call issued yet, cache `c0`. -/
def initState (n : Nat) (c0 : TokenCache) : AuthSysState n :=
  { cache := c0, lockHeld := false, httpCalls := 0, callers := fun _ => .start }

/-- A freshly refreshed cache is valid at the instant of the refresh,
provided the token is non-empty and `expires_in` exceeds the buffer. -/
lemma set_is_valid (c0 : TokenCache) (tok : String) (E now : Nat)
    (htok : tok ≠ "") (hE : c0.refresh_buffer < E) :
    (c0.set tok E now).is_valid now = true := by
  simp only [TokenCache.set, TokenCache.is_valid, Bool.and_eq_true, decide_eq_true_eq,
    ne_eq]
  exact ⟨htok, by omega⟩

/-- The reachable-state invariant of the refresh protocol, in three phases:
no refresh started yet; exactly one refresh in flight (lock held); refresh
completed (cache holds the one acquired token). -/
def Inv {n : Nat} (now : Nat) (tok : String) (E : Nat) (c0 : TokenCache)
    (s : AuthSysState n) : Prop :=
  (s.httpCalls = 0 ∧ s.cache = c0 ∧ s.lockHeld = false ∧
    ∀ i, s.callers i = .start ∨ s.callers i = .waitLock)
  ∨ (s.httpCalls = 1 ∧ s.cache = c0 ∧ s.lockHeld = true ∧
    ∃ j, s.callers j = .inCall ∧
      ∀ i, i ≠ j → s.callers i = .start ∨ s.callers i = .waitLock)
  ∨ (s.httpCalls = 1 ∧ s.cache = c0.set tok E now ∧ s.lockHeld = false ∧
    ∀ i, s.callers i = .start ∨ s.callers i = .waitLock ∨ s.callers i = .done tok)

lemma inv_step {n : Nat} (now : Nat) (tok : String) (E : Nat) (c0 : TokenCache)
    (htok : tok ≠ "") (hE : c0.refresh_buffer < E) (hc0 : c0.is_valid now = false)
    (s : AuthSysState n) (i : Fin n) (h : Inv now tok E c0 s) :
    Inv now tok E c0 (stepCaller now tok E s i) := by
  rcases h with ⟨hcalls, hcache, hlock, hpcs⟩ |
    ⟨hcalls, hcache, hlock, j, hj, hothers⟩ | ⟨hcalls, hcache, hlock, hpcs⟩
  · -- Phase A: no refresh started
    rcases hpc : s.callers i with _ | _ | _ | r
    · unfold stepCaller
      rw [hpc, hcache, hc0]
      simp only [Bool.false_eq_true, if_false]
      refine Or.inl ⟨hcalls, rfl, hlock, ?_⟩
      intro k
      rcases eq_or_ne k i with rfl | hk
      · right; simp [Function.update]
      · simpa [Function.update, hk] using hpcs k
    · unfold stepCaller
      rw [hpc, hlock, hcache, hc0]
      simp only [Bool.false_eq_true, if_false]
      refine Or.inr (Or.inl ⟨by simp [hcalls], rfl, rfl, i, ?_, ?_⟩)
      · simp [Function.update]
      · intro k hk
        simpa [Function.update, hk] using hpcs k
    · rcases hpcs i with h' | h' <;> simp [hpc] at h'
    · rcases hpcs i with h' | h' <;> simp [hpc] at h'
  · -- Phase B: one refresh in flight
    rcases hpc : s.callers i with _ | _ | _ | r
    · have hij : i ≠ j := fun he => by rw [he, hj] at hpc; cases hpc
      unfold stepCaller
      rw [hpc, hcache, hc0]
      simp only [Bool.false_eq_true, if_false]
      refine Or.inr (Or.inl ⟨hcalls, rfl, hlock, j, ?_, ?_⟩)
      · simpa [Function.update, hij.symm] using hj
      · intro k hk
        rcases eq_or_ne k i with rfl | hki
        · right; simp [Function.update]
        · simpa [Function.update, hki] using hothers k hk
    · unfold stepCaller
      rw [hpc, hlock]
      simp only [if_true]
      exact Or.inr (Or.inl ⟨hcalls, hcache, hlock, j, hj, hothers⟩)
    · have hij : i = j := by
        by_contra hne
        rcases hothers i hne with h' | h' <;> simp [hpc] at h'
      unfold stepCaller
      rw [hpc]
      refine Or.inr (Or.inr ⟨hcalls, by rw [hcache], rfl, ?_⟩)
      intro k
      rcases eq_or_ne k i with rfl | hki
      · right; right; simp [Function.update]
      · rcases hothers k (hij ▸ hki) with h' | h'
        · left; simpa [Function.update, hki] using h'
        · right; left; simpa [Function.update, hki] using h'
    · rcases eq_or_ne i j with rfl | hne
      · rw [hj] at hpc; cases hpc
      · rcases hothers i hne with h' | h' <;> simp [hpc] at h'
  · -- Phase C: refresh completed, cache valid, token is `tok`
    have hvalid : s.cache.is_valid now = true := by
      rw [hcache]; exact set_is_valid c0 tok E now htok hE
    have htokc : s.cache.access_token = tok := by
      rw [hcache]; rfl
    rcases hpc : s.callers i with _ | _ | _ | r
    · unfold stepCaller
      rw [hpc, hvalid]
      simp only [if_true]
      refine Or.inr (Or.inr ⟨hcalls, hcache, hlock, ?_⟩)
      intro k
      rcases eq_or_ne k i with rfl | hki
      · right; right; simp [Function.update, htokc]
      · simpa [Function.update, hki] using hpcs k
    · unfold stepCaller
      rw [hpc, hlock, hvalid]
      simp only [Bool.false_eq_true, if_false, if_true]
      refine Or.inr (Or.inr ⟨hcalls, hcache, rfl, ?_⟩)
      intro k
      rcases eq_or_ne k i with rfl | hki
      · right; right; simp [Function.update, htokc]
      · simpa [Function.update, hki] using hpcs k
    · rcases hpcs i with h' | h' | h' <;> simp [hpc] at h'
    · unfold stepCaller
      rw [hpc]
      exact Or.inr (Or.inr ⟨hcalls, hcache, hlock, hpcs⟩)

lemma inv_run {n : Nat} (now : Nat) (tok : String) (E : Nat) (c0 : TokenCache)
    (htok : tok ≠ "") (hE : c0.refresh_buffer < E) (hc0 : c0.is_valid now = false)
    (sched : List (Fin n)) (s : AuthSysState n) (h : Inv now tok E c0 s) :
    Inv now tok E c0 (runSched now tok E s sched) := by
  induction sched generalizing s with
  | nil => exact h
  | cons a l ih => exact ih _ (inv_step now tok E c0 htok hE hc0 s a h)

/-- C1: For the shared-token-cache strategies (cloud OAuth and on-prem
password exchange), any interleaving of `n ≥ 2` concurrent `get_token`
callers starting from an invalid (empty or expired) cache in which every
caller completes issues exactly one credential-acquisition HTTP call, and
every caller returns that one call's token; moreover a caller whose
fast-path check finds the cache valid returns the cached token directly —
the step changes only its own control point, acquiring neither the lock nor
making an HTTP call. -/
theorem single_refresh_under_contention
    {n : Nat} (now : Nat) (tok : String) (E : Nat) (c0 : TokenCache)
    (sched : List (Fin n))
    (hn : 2 ≤ n) (htok : tok ≠ "") (hE : c0.refresh_buffer < E)
    (hc0 : c0.is_valid now = false)
    (hdone : ∀ i, ∃ r, (runSched now tok E (initState n c0) sched).callers i = .done r) :
    (runSched now tok E (initState n c0) sched).httpCalls = 1
    ∧ (∀ i, (runSched now tok E (initState n c0) sched).callers i = .done tok)
    ∧ (∀ (s : AuthSysState n) (i : Fin n),
        s.callers i = .start → s.cache.is_valid now = true →
        stepCaller now tok E s i =
          { s with callers := Function.update s.callers i (.done s.cache.access_token) }) := by
  have hinit : Inv now tok E c0 (initState n c0) :=
    Or.inl ⟨rfl, rfl, rfl, fun _ => Or.inl rfl⟩
  have hfin := inv_run now tok E c0 htok hE hc0 sched _ hinit
  have i0 : Fin n := ⟨0, by omega⟩
  rcases hfin with ⟨_, _, _, hpcs⟩ | ⟨_, _, _, j, hj, _⟩ | ⟨hcalls, _, _, hpcs⟩
  · obtain ⟨r, hr⟩ := hdone i0
    rcases hpcs i0 with h' | h' <;> rw [hr] at h' <;> cases h'
  · obtain ⟨r, hr⟩ := hdone j
    rw [hr] at hj; cases hj
  · refine ⟨hcalls, ?_, ?_⟩
    · intro i
      obtain ⟨r, hr⟩ := hdone i
      rcases hpcs i with h' | h' | h'
      · rw [hr] at h'; cases h'
      · rw [hr] at h'; cases h'
      · exact h'
    · intro s i hpc hvalid
      unfold stepCaller
      rw [hpc, hvalid]
      simp only [if_true]

/-- Witness for C1: two callers, schedule `[0, 1, 0, 0, 1]` (both hit the
fast path and queue on the lock; caller 0 refreshes; caller 1 re-checks and
reads the refreshed cache). -/
theorem single_refresh_under_contention_witness :
    (runSched 0 "t" 3600 (initState 2 {}) [0, 1, 0, 0, 1]).httpCalls = 1
    ∧ (∀ i, (runSched 0 "t" 3600 (initState 2 {}) [0, 1, 0, 0, 1]).callers i =
        .done "t")
    ∧ (∀ (s : AuthSysState 2) (i : Fin 2),
        s.callers i = .start → s.cache.is_valid 0 = true →
        stepCaller 0 "t" 3600 s i =
          { s with callers := Function.update s.callers i (.done s.cache.access_token) }) :=
  single_refresh_under_contention 0 "t" 3600 {} [0, 1, 0, 0, 1]
    (by omega) (by decide) (by decide) (by decide)
    (fun i => by fin_cases i <;> exact ⟨"t", rfl⟩)

/-! ## `get_token` error translation (`auth.py`, `UiPathAuthError`,
`CloudAuthStrategy.get_token` lines 115-146, `OnPremAuthStrategy.get_token`
lines 177-206)

The refresh segment posts to the token endpoint; the exchange either
yields a 2xx with a parsed JSON body, raises `httpx.HTTPStatusError`
(from `raise_for_status`), or raises an `httpx.RequestError`
(connect error / timeout).  The exact exception-message strings produced
by httpx are abstracted as the `msg`/`text` payloads of the exchange. -/

structure UiPathAuthError where
  message : String
  status_code : Option Nat := none
  detail : Option String := none
  deriving Repr, DecidableEq

inductive HttpExchange (β : Type) where
  | ok (body : β)
  | statusError (status : Nat) (text : String)
  | requestError (msg : String)
  deriving Repr, DecidableEq

/-- JSON body of the cloud token endpoint: `access_token` plus
`data.get("expires_in", 3600)`. -/
structure CloudTokenBody where
  access_token : String
  expires_in : Option Nat
  deriving Repr, DecidableEq

/-- JSON body of `/api/Account/Authenticate`: `data.get("success", False)`,
the token under `"result"`, and `data.get("error", ...)`. -/
structure OnPremAuthBody where
  success : Bool
  result : String
  error : Option String
  deriving Repr, DecidableEq

/-- Result of one refresh: a token (with the updated cache), a raised
`UiPathAuthError` (with the possibly-cleared cache), or a raw
`httpx.RequestError` escaping untranslated. -/
inductive AuthOutcome where
  | token (t : String) (cache : TokenCache)
  | authError (e : UiPathAuthError) (cache : TokenCache)
  | rawRequestError (msg : String) (cache : TokenCache)
  deriving Repr, DecidableEq

/-- The refresh segment of `CloudAuthStrategy.get_token` (auth.py:115-146). -/
def cloudRefresh (cache : TokenCache) (now : Nat) (tokenUrl : String)
    (x : HttpExchange CloudTokenBody) : AuthOutcome :=
  match x with
  | .ok body =>
      let expires_in := body.expires_in.getD 3600
      .token body.access_token (cache.set body.access_token expires_in now)
  | .statusError st text =>
      .authError
        { message := "Failed to obtain cloud OAuth2 token — check UIPATH_CLIENT_ID/SECRET",
          status_code := some st, detail := some (text.take 500) }
        cache.clear
  | .requestError msg =>
      .authError
        { message := "Network error reaching token endpoint: " ++ tokenUrl,
          detail := some msg }
        cache.clear

/-- The refresh segment of `OnPremAuthStrategy.get_token` (auth.py:177-206).
Only `httpx.HTTPStatusError` is caught there: a `httpx.RequestError`
propagates out untranslated. -/
def onPremRefresh (cache : TokenCache) (now : Nat)
    (x : HttpExchange OnPremAuthBody) : AuthOutcome :=
  match x with
  | .ok body =>
      if body.success then
        .token body.result (cache.set body.result 1800 now)
      else
        .authError
          { message := "On-prem authentication failed",
            detail := some (body.error.getD "Unknown error from Orchestrator") }
          cache
  | .statusError st text =>
      .authError
        { message := "On-prem authentication HTTP error",
          status_code := some st, detail := some (text.take 500) }
        cache.clear
  | .requestError msg => .rawRequestError msg cache

/-- C6 (code bug): the cloud variant honours the contract — an HTTP error
response becomes a `UiPathAuthError` carrying the status code and the
response body truncated to 500 characters, and a network-level failure
becomes a `UiPathAuthError` without a status code — but the on-prem
variant catches only `httpx.HTTPStatusError`, so a connect error or
timeout during the password exchange escapes as a raw transport exception
instead of a `UiPathAuthError`, shown here at a concrete connect error. -/
theorem get_token_error_translation :
    (∀ (cache : TokenCache) (now : Nat) (url : String) (st : Nat) (text : String),
      cloudRefresh cache now url (.statusError st text) =
        .authError
          { message := "Failed to obtain cloud OAuth2 token — check UIPATH_CLIENT_ID/SECRET",
            status_code := some st, detail := some (text.take 500) }
          cache.clear)
    ∧ (∀ (cache : TokenCache) (now : Nat) (url : String) (msg : String),
      cloudRefresh cache now url (.requestError msg) =
        .authError
          { message := "Network error reaching token endpoint: " ++ url,
            status_code := none, detail := some msg }
          cache.clear)
    ∧ onPremRefresh {} 0 (.requestError "connection refused") =
        .rawRequestError "connection refused" {} :=
  ⟨fun _ _ _ _ _ => rfl, fun _ _ _ _ => rfl, rfl⟩

/-! ## The Request Executor (`client.py`, `_is_retryable` lines 113-121 and
`UiPathClient._request` lines 211-291)

`_request` drives tenacity's `AsyncRetrying` with
`stop=stop_after_attempt(retry_max_attempts)`,
`retry=retry_if_exception(_is_retryable)` and `reraise=True`.  tenacity
semantics: after a failed attempt, if the exception is not retryable the
original exception is re-raised; if it is retryable but the attempt number
has reached the stop bound, `reraise=True` re-raises the original
exception *instead of* `RetryError` — so the `except RetryError` branch
(client.py:284-288) can never run.  `server k` below models the network's
behaviour on the `k`-th attempt (1-based); backoff and `Retry-After`
sleeps affect only timing and are not modelled. -/

structure UiPathError where
  message : String
  status_code : Option Nat := none
  error_code : Option String := none
  detail : Option String := none
  endpoint : Option String := none
  deriving Repr, DecidableEq

/-- Error-response body as read by `_raise_api_error` (client.py:195-209):
`none` models a body that is not parseable JSON; the fields model
`message`/`Message` and `errorCode`/`ErrorCode` lookups. -/
structure ErrBody where
  message : Option String
  errorCode : Option String
  deriving Repr, DecidableEq

/-- What the network does on one attempt: an HTTP response (status, parsed
error body if any, raw text), a timeout, a connect error, or a
`UiPathAuthError` raised while obtaining the bearer token. -/
inductive NetResp where
  | resp (status : Nat) (body : Option ErrBody) (text : String)
  | timeoutExc
  | connectExc
  | authExc
  deriving Repr, DecidableEq

/-- Exceptions that can leave one `with attempt:` block. -/
inductive AttemptExc where
  | httpStatus (status : Nat)
  | timeout
  | connect
  | uipathErr (e : UiPathError)
  | uipathAuthErr
  deriving Repr, DecidableEq

/-- `_is_retryable` (client.py:113-121): timeouts, connect errors, and
`HTTPStatusError` with status in {429, 502, 503, 504}. -/
def is_retryable_exc : AttemptExc → Bool
  | .timeout => true
  | .connect => true
  | .httpStatus st => st = 429 || st = 502 || st = 503 || st = 504
  | .uipathErr _ => false
  | .uipathAuthErr => false

/-- A stand-in for Python's `str(exc)` on an `httpx.HTTPStatusError`
(the claims never depend on this text). -/
def strOfStatusExc (st : Nat) (url : String) : String :=
  "HTTP status error " ++ toString st ++ " for url " ++ url

/-- `_raise_api_error` (client.py:195-209). -/
def raise_api_error (st : Nat) (body : Option ErrBody) (text url : String) : UiPathError :=
  match body with
  | some b =>
      { message := b.message.getD (strOfStatusExc st url),
        status_code := some st,
        error_code := some (b.errorCode.getD ""),
        detail := some (text.take 1000), endpoint := some url }
  | none =>
      { message := strOfStatusExc st url,
        status_code := some st,
        error_code := none,
        detail := some (text.take 1000), endpoint := some url }

/-- One `with attempt:` body of `_request` (client.py:234-278): the result
(success status or exception) together with whether this attempt cleared
the shared token cache (the 401 branch, client.py:257-261). -/
def runAttempt (url : String) : NetResp → Except AttemptExc Nat × Bool
  | .timeoutExc => (.error .timeout, false)
  | .connectExc => (.error .connect, false)
  | .authExc => (.error .uipathAuthErr, false)
  | .resp st body text =>
      if st = 429 then (.error (.httpStatus 429), false)
      else if st = 401 then (.error (.httpStatus 401), true)
      else if st = 404 then
        (.error (.uipathErr
          { message := "Resource not found: " ++ url, status_code := some 404,
            error_code := some "NOT_FOUND", endpoint := some url }), false)
      else if 400 ≤ st then
        if is_retryable_exc (.httpStatus st) then (.error (.httpStatus st), false)
        else (.error (.uipathErr (raise_api_error st body text url)), false)
      else (.ok st, false)

/-- What `_request` ultimately produces for its caller. -/
inductive ReqOutcome where
  | success (status : Nat)
  | uipathError (e : UiPathError)
  | uipathAuthError
  | rawHttpStatusError (status : Nat)
  | rawTimeout
  | rawConnectError
  deriving Repr, DecidableEq

/-- Translation of the exception finally re-raised by the retry loop
through `_request`'s `except` clauses (client.py:280-291):
`UiPathAuthError` and `UiPathError` are re-raised as themselves; httpx
exceptions match no clause and escape raw. -/
def excToOutcome : AttemptExc → ReqOutcome
  | .httpStatus st => .rawHttpStatusError st
  | .timeout => .rawTimeout
  | .connect => .rawConnectError
  | .uipathErr e => .uipathError e
  | .uipathAuthErr => .uipathAuthError

/-- The retry loop of `_request`.  Arguments: fuel (for termination; the
loop runs at most `maxAttempts` attempts, so `fuel = maxAttempts`
suffices), the 1-based attempt number `k`, and whether the cache has been
cleared so far.  Returns (outcome, attempts issued, cache cleared). -/
def requestLoop (url : String) (server : Nat → NetResp) (maxAttempts : Nat) :
    Nat → Nat → Bool → ReqOutcome × Nat × Bool
  | 0, k, cleared =>
      (.uipathError { message := "Unexpected retry loop exit", endpoint := some url },
        k - 1, cleared)
  | fuel + 1, k, cleared =>
      let (res, clr) := runAttempt url (server k)
      let cleared' := cleared || clr
      match res with
      | .ok st => (.success st, k, cleared')
      | .error e =>
          if is_retryable_exc e && decide (k < maxAttempts) then
            requestLoop url server maxAttempts fuel (k + 1) cleared'
          else
            (excToOutcome e, k, cleared')

/-- `_request` (client.py:211-291). -/
def request (url : String) (server : Nat → NetResp) (maxAttempts : Nat) :
    ReqOutcome × Nat × Bool :=
  requestLoop url server maxAttempts maxAttempts 1 false

/-- C2 (code bug): a 401 response does clear the shared token cache, but
401 is not in `_is_retryable`'s status set, so the very first 401
terminates the loop after exactly one attempt and the raw
`httpx.HTTPStatusError` escapes `_request` — there is no second attempt
that re-authenticates, contrary to the claim (and to the code's own
comment "will re-authenticate" at client.py:258-260). -/
theorem request_401_one_attempt_raw
    (url : String) (server : Nat → NetResp) (maxAttempts : Nat)
    (body : Option ErrBody) (text : String)
    (hmax : 1 ≤ maxAttempts) (hserver : server 1 = .resp 401 body text) :
    request url server maxAttempts = (.rawHttpStatusError 401, 1, true)
    ∧ is_retryable_exc (.httpStatus 401) = false := by
  obtain ⟨m, rfl⟩ : ∃ m, maxAttempts = m + 1 := ⟨maxAttempts - 1, by omega⟩
  refine ⟨?_, rfl⟩
  simp [request, requestLoop, runAttempt, hserver, is_retryable_exc, excToOutcome]

/-- Witness for C2: a server that answers 401 to everything, three attempts
configured. -/
theorem request_401_one_attempt_raw_witness :
    request "https://orch/odata/Jobs" (fun _ => .resp 401 none "Unauthorized") 3 =
      (.rawHttpStatusError 401, 1, true)
    ∧ is_retryable_exc (.httpStatus 401) = false :=
  request_401_one_attempt_raw "https://orch/odata/Jobs"
    (fun _ => .resp 401 none "Unauthorized") 3 none "Unauthorized"
    (by omega) rfl

lemma requestLoop_const_503 (url : String) (server : Nat → NetResp)
    (text : String) (maxAttempts : Nat)
    (hserver : ∀ k, server k = .resp 503 none text) :
    ∀ (fuel k : Nat) (cleared : Bool), 1 ≤ k → k ≤ maxAttempts →
      maxAttempts - k < fuel →
      requestLoop url server maxAttempts fuel k cleared =
        (.rawHttpStatusError 503, maxAttempts, cleared) := by
  intro fuel
  induction fuel with
  | zero => intro k cleared _ _ h; omega
  | succ f ih =>
      intro k cleared hk1 hkm hfuel
      rcases lt_or_eq_of_le hkm with hlt | rfl
      · rw [requestLoop]
        simp only [hserver, runAttempt, is_retryable_exc]
        norm_num [hlt]
        exact ih (k + 1) cleared (by omega) (by omega) (by omega)
      · rw [requestLoop]
        simp only [hserver, runAttempt, is_retryable_exc]
        norm_num [excToOutcome]

/-- C3 (code bug): an endpoint that always answers 503 with
`retry_max_attempts = maxAttempts` is attempted exactly `maxAttempts`
times, as the claim says; but because `reraise=True` re-raises the last
original exception instead of `RetryError`, the `except RetryError`
branch that would build the structured "All N retry attempts failed"
`UiPathError` referencing the endpoint (client.py:284-288) never runs,
and the raw `httpx.HTTPStatusError` escapes `_request` instead. -/
theorem request_503_exhaustion_raw
    (url : String) (server : Nat → NetResp) (text : String) (maxAttempts : Nat)
    (hmax : 1 ≤ maxAttempts) (hserver : ∀ k, server k = .resp 503 none text) :
    request url server maxAttempts = (.rawHttpStatusError 503, maxAttempts, false) := by
  exact requestLoop_const_503 url server text maxAttempts hserver maxAttempts 1 false
    le_rfl hmax (by omega)

/-- Witness for C3: the claim's concrete scenario, `maxAttempts = 3`. -/
theorem request_503_exhaustion_raw_witness :
    request "https://orch/odata/Jobs" (fun _ => .resp 503 none "Service Unavailable") 3 =
      (.rawHttpStatusError 503, 3, false) :=
  request_503_exhaustion_raw "https://orch/odata/Jobs"
    (fun _ => .resp 503 none "Service Unavailable") "Service Unavailable" 3
    (by omega) (fun _ => rfl)

/-! ## Folder-scoping headers (`client.py`, `UiPathClient._folder_headers`,
lines 171-183)

`quote(eff_path, safe="")` percent-encodes every UTF-8 byte except the
unreserved set (ASCII letters, digits, `_`, `.`, `-`, `~`), with uppercase
hex digits; modelled byte-for-byte on the string's UTF-8 encoding. -/

def isUrlSafeByte (b : UInt8) : Bool :=
  (65 ≤ b && b ≤ 90) || (97 ≤ b && b ≤ 122) || (48 ≤ b && b ≤ 57) ||
    b == 45 || b == 46 || b == 95 || b == 126

def hexUpper (n : Nat) : Char :=
  if n < 10 then Char.ofNat (48 + n) else Char.ofNat (55 + n)

def quoteByte (b : UInt8) : List Char :=
  if isUrlSafeByte b then [Char.ofNat b.toNat]
  else ['%', hexUpper (b.toNat / 16), hexUpper (b.toNat % 16)]

/-- `urllib.parse.quote(s, safe="")`, applied to the string's UTF-8 bytes
(`String.utf8EncodeChar` is the byte encoding `String.toUTF8` uses). -/
def pyQuote (s : String) : String :=
  String.mk ((s.data.flatMap String.utf8EncodeChar).flatMap quoteByte)

/-- `eff_id = folder_id if folder_id is not None else self._settings.uipath_folder_id`
(client.py:177). -/
def effFolderId (folder_id settings_folder_id : Option Int) : Option Int :=
  match folder_id with
  | some i => some i
  | none => settings_folder_id

/-- `eff_path = folder_path or self._settings.uipath_folder_path`
(client.py:178): Python `or` falls through on the falsy values `None`
and `""`. -/
def effFolderPath (folder_path settings_folder_path : Option String) : Option String :=
  match folder_path with
  | some p => if p = "" then settings_folder_path else some p
  | none => settings_folder_path

/-- Python truthiness of an optional string. -/
def pathTruthy : Option String → Bool
  | some p => !(p == "")
  | none => false

/-- `UiPathClient._folder_headers` (client.py:171-183). -/
def folder_headers (settings_folder_id : Option Int) (settings_folder_path : Option String)
    (folder_id : Option Int) (folder_path : Option String) : List (String × String) :=
  let eff_id := effFolderId folder_id settings_folder_id
  let eff_path := effFolderPath folder_path settings_folder_path
  match eff_id with
  | some i => [("X-UIPATH-OrganizationUnitId", toString i)]
  | none =>
      match eff_path with
      | some p => if p = "" then [] else [("X-UIPATH-FolderPath-Encoded", pyQuote p)]
      | none => []

/-- C7 counterexample: with a configured default folder id
(`settings.uipath_folder_id = 7`) and no explicit folder id, the layer
emits the organization-unit header — both when an explicit folder path is
supplied (the claim says only the folder-path header would be emitted) and
when neither explicit argument is supplied (the claim says no
folder-scoping header would be emitted by this layer). -/
theorem folder_headers_claim_counterexample :
    folder_headers (some 7) none none (some "Finance") =
      [("X-UIPATH-OrganizationUnitId", "7")]
    ∧ folder_headers (some 7) none none none =
      [("X-UIPATH-OrganizationUnitId", "7")] :=
  ⟨rfl, rfl⟩

/-- C7 amended: precedence is decided on the *effective* values — the
explicit argument overriding the configured default (`uipath_folder_id` /
`uipath_folder_path`), with an explicit empty-string path treated as
absent.  If an effective folder id exists, only the organization-unit-id
header is emitted (in particular an explicit id wins even when a folder
path is also supplied); else if the effective path is non-empty, only the
URL-encoded folder-path header; else no folder-scoping header.  At most
one folder-scoping header is ever emitted. -/
theorem folder_headers_effective_precedence
    (sid : Option Int) (spath : Option String)
    (fid : Option Int) (fpath : Option String) :
    (∀ i, effFolderId fid sid = some i →
      folder_headers sid spath fid fpath = [("X-UIPATH-OrganizationUnitId", toString i)])
    ∧ (∀ p, effFolderId fid sid = none → effFolderPath fpath spath = some p → p ≠ "" →
      folder_headers sid spath fid fpath = [("X-UIPATH-FolderPath-Encoded", pyQuote p)])
    ∧ (effFolderId fid sid = none → pathTruthy (effFolderPath fpath spath) = false →
      folder_headers sid spath fid fpath = [])
    ∧ (folder_headers sid spath fid fpath).length ≤ 1
    ∧ (∀ i, fid = some i → effFolderId fid sid = some i) := by
  refine ⟨?_, ?_, ?_, ?_, ?_⟩
  · intro i hi
    simp [folder_headers, hi]
  · intro p hid hp hne
    simp [folder_headers, hid, hp, hne]
  · intro hid htr
    cases hp : effFolderPath fpath spath with
    | none => simp [folder_headers, hid, hp]
    | some p =>
        rw [hp] at htr
        simp only [pathTruthy, Bool.not_eq_true'] at htr
        have : p = "" := by simpa using htr
        simp [folder_headers, hid, hp, this]
  · unfold folder_headers
    cases effFolderId fid sid with
    | some i => simp
    | none =>
        cases effFolderPath fpath spath with
        | none => simp
        | some p =>
            by_cases hp : p = "" <;> simp [hp]
  · intro i hi
    simp [effFolderId, hi]

/-- Witness for C7's amended theorem: explicit id 42 beats an explicit
path; explicit path "Shared/Sub" is URL-encoded when no id exists; no
effective values means no header. -/
theorem folder_headers_effective_precedence_witness :
    ((∀ i, effFolderId (some 42) none = some i →
      folder_headers none none (some 42) (some "Shared/Sub") =
        [("X-UIPATH-OrganizationUnitId", toString i)])
    ∧ (∀ p, effFolderId (some 42) none = none →
        effFolderPath (some "Shared/Sub") none = some p → p ≠ "" →
      folder_headers none none (some 42) (some "Shared/Sub") =
        [("X-UIPATH-FolderPath-Encoded", pyQuote p)])
    ∧ (effFolderId (some 42) none = none →
        pathTruthy (effFolderPath (some "Shared/Sub") none) = false →
      folder_headers none none (some 42) (some "Shared/Sub") = [])
    ∧ (folder_headers none none (some 42) (some "Shared/Sub")).length ≤ 1
    ∧ (∀ i, (some 42 : Option Int) = some i → effFolderId (some 42) none = some i))
    ∧ folder_headers none none none (some "Shared/Sub") =
      [("X-UIPATH-FolderPath-Encoded", "Shared%2FSub")] := by
  constructor
  · exact folder_headers_effective_precedence none none (some 42) (some "Shared/Sub")
  · have h := (folder_headers_effective_precedence none none none
      (some "Shared/Sub")).2.1 "Shared/Sub" rfl rfl (by decide)
    rw [h]
    rfl

/-! ## OData query builder (`client.py`, class `ODataParams`, lines 67-108)

The builder is a mutable Python object: each setter assigns into
`self._params` and returns `self`; `build()` returns `dict(self._params)`,
a fresh copy.  To state object identity ("each setter returns the same
builder instance") and the snapshot property faithfully, we model a tiny
heap: builder objects hold the address of their `_params` dict, and dict
objects are insertion-ordered association lists with Python's
insert-or-update-in-place assignment. -/

inductive PyVal where
  | int (n : Int)
  | str (s : String)
  deriving Repr, DecidableEq

abbrev ParamsMap := List (String × PyVal)

/-- Python dict assignment `d[k] = v`: an existing key keeps its position
and gets the new value; a new key is appended. -/
def dictSet (m : ParamsMap) (k : String) (v : PyVal) : ParamsMap :=
  if m.any (fun p => p.1 == k) then
    m.map (fun p => if p.1 == k then (k, v) else p)
  else m ++ [(k, v)]

/-- Heap of Python objects; addresses are list indices.  A builder object
is the address of its `_params` dict. -/
structure PyHeap where
  builders : List Nat
  dicts : List ParamsMap
  deriving Repr, DecidableEq

/-- `ODataParams.__init__` (client.py:76-77): allocate an empty `_params`
dict and a builder pointing at it; returns the builder's address. -/
def newODataParams (h : PyHeap) : PyHeap × Nat :=
  ({ builders := h.builders ++ [h.dicts.length], dicts := h.dicts ++ [[]] },
    h.builders.length)

/-- Common body of every setter: `self._params[key] = value; return self`. -/
def setParam (h : PyHeap) (self : Nat) (k : String) (v : PyVal) : PyHeap × Nat :=
  match h.builders.get? self with
  | none => (h, self)
  | some dref =>
      ({ h with dicts := h.dicts.set dref (dictSet (h.dicts.getD dref []) k v) }, self)

namespace ODataParams

def top (h : PyHeap) (self : Nat) (n : Int) : PyHeap × Nat :=
  setParam h self "$top" (.int n)

def skip (h : PyHeap) (self : Nat) (n : Int) : PyHeap × Nat :=
  setParam h self "$skip" (.int n)

def filter (h : PyHeap) (self : Nat) (expr : String) : PyHeap × Nat :=
  setParam h self "$filter" (.str expr)

def select (h : PyHeap) (self : Nat) (fields : List String) : PyHeap × Nat :=
  setParam h self "$select" (.str (String.intercalate "," fields))

def orderby (h : PyHeap) (self : Nat) (field_name direction : String) : PyHeap × Nat :=
  setParam h self "$orderby" (.str (field_name ++ " " ++ direction))

def expand (h : PyHeap) (self : Nat) (relations : List String) : PyHeap × Nat :=
  setParam h self "$expand" (.str (String.intercalate "," relations))

def count (h : PyHeap) (self : Nat) : PyHeap × Nat :=
  setParam h self "$count" (.str "true")

/-- `build()` (client.py:107-108): `dict(self._params)` — allocate a fresh
copy of the builder's dict; returns the copy's address (the snapshot). -/
def build (h : PyHeap) (self : Nat) : PyHeap × Nat :=
  ({ h with dicts := h.dicts ++ [h.dicts.getD (h.builders.getD self 0) []] },
    h.dicts.length)

end ODataParams

/-- One setter invocation, for quantifying over "any later setter calls". -/
inductive SetterCall where
  | top (n : Int)
  | skip (n : Int)
  | filter (expr : String)
  | select (fields : List String)
  | orderby (field_name direction : String)
  | expand (relations : List String)
  | count
  deriving Repr, DecidableEq

def applyCall (h : PyHeap) (self : Nat) : SetterCall → PyHeap × Nat
  | .top n => ODataParams.top h self n
  | .skip n => ODataParams.skip h self n
  | .filter e => ODataParams.filter h self e
  | .select fs => ODataParams.select h self fs
  | .orderby f d => ODataParams.orderby h self f d
  | .expand rs => ODataParams.expand h self rs
  | .count => ODataParams.count h self

/-- Run a chain of setter calls, threading the returned builder reference
as Python chaining does. -/
def applyCalls (h : PyHeap) (self : Nat) : List SetterCall → PyHeap
  | [] => h
  | c :: cs => applyCalls (applyCall h self c).1 (applyCall h self c).2 cs

lemma setParam_snd (h : PyHeap) (self : Nat) (k : String) (v : PyVal) :
    (setParam h self k v).2 = self := by
  unfold setParam
  cases h.builders.get? self <;> rfl

lemma setParam_builders (h : PyHeap) (self : Nat) (k : String) (v : PyVal) :
    (setParam h self k v).1.builders = h.builders := by
  unfold setParam
  cases h.builders.get? self <;> rfl

lemma setParam_dict_one (h : PyHeap) (k : String) (v : PyVal)
    (hb : h.builders = [0]) :
    (setParam h 0 k v).1.dicts[1]? = h.dicts[1]? := by
  unfold setParam
  rw [hb]
  simp

lemma applyCall_snd (h : PyHeap) (self : Nat) (c : SetterCall) :
    (applyCall h self c).2 = self := by
  cases c <;>
    simp only [applyCall, ODataParams.top, ODataParams.skip, ODataParams.filter,
      ODataParams.select, ODataParams.orderby, ODataParams.expand, ODataParams.count,
      setParam_snd]

lemma applyCall_builders (h : PyHeap) (self : Nat) (c : SetterCall) :
    (applyCall h self c).1.builders = h.builders := by
  cases c <;>
    simp only [applyCall, ODataParams.top, ODataParams.skip, ODataParams.filter,
      ODataParams.select, ODataParams.orderby, ODataParams.expand, ODataParams.count,
      setParam_builders]

lemma applyCall_dict_one (h : PyHeap) (c : SetterCall) (hb : h.builders = [0]) :
    (applyCall h 0 c).1.dicts[1]? = h.dicts[1]? := by
  cases c <;>
    simp only [applyCall, ODataParams.top, ODataParams.skip, ODataParams.filter,
      ODataParams.select, ODataParams.orderby, ODataParams.expand, ODataParams.count,
      setParam_dict_one h _ _ hb]

lemma applyCalls_dict_one (M : ParamsMap) (calls : List SetterCall) :
    ∀ h : PyHeap, h.builders = [0] → h.dicts[1]? = some M →
      (applyCalls h 0 calls).dicts[1]? = some M := by
  induction calls with
  | nil => intro h _ hd; exact hd
  | cons c cs ih =>
      intro h hb hd
      rw [applyCalls, applyCall_snd]
      exact ih _ (by rw [applyCall_builders, hb]) (by rw [applyCall_dict_one h c hb, hd])

/-- The heap after `ODataParams().top(50).skip(100).filter("State eq 'Running'")`
starting from an empty heap: the builder is object 0 and its dict is
object 0. -/
def chainHeap : PyHeap :=
  (ODataParams.filter
    (ODataParams.skip
      (ODataParams.top (newODataParams ⟨[], []⟩).1 0 50).1 0 100).1
    0 "State eq 'Running'").1

/-- The heap after the subsequent `.build()`; the snapshot dict is object 1. -/
def builtHeap : PyHeap := (ODataParams.build chainHeap 0).1

/-- C8: the chained build produces exactly
`{"$top": 50, "$skip": 100, "$filter": "State eq 'Running'"}`; `build()` on
a fresh builder returns an empty mapping; every setter returns the very
builder reference it was called on; and the snapshot returned by `build()`
is unaffected by any sequence of later setter calls on the builder. -/
theorem odata_builder_determinism :
    ((newODataParams ⟨[], []⟩).2 = 0 ∧ (ODataParams.build chainHeap 0).2 = 1)
    ∧ builtHeap.dicts.getD 1 [] =
        [("$top", .int 50), ("$skip", .int 100), ("$filter", .str "State eq 'Running'")]
    ∧ ((ODataParams.build (newODataParams ⟨[], []⟩).1 0).1.dicts.getD
        (ODataParams.build (newODataParams ⟨[], []⟩).1 0).2 [] = [])
    ∧ (∀ (h : PyHeap) (self : Nat) (c : SetterCall), (applyCall h self c).2 = self)
    ∧ (∀ calls : List SetterCall,
        (applyCalls builtHeap 0 calls).dicts[1]? =
          some [("$top", .int 50), ("$skip", .int 100),
                ("$filter", .str "State eq 'Running'")]) := by
  refine ⟨⟨rfl, rfl⟩, rfl, rfl, applyCall_snd, ?_⟩
  intro calls
  exact applyCalls_dict_one _ calls builtHeap rfl rfl

/-! ## Pager (`client.py`, `UiPathClient.paginate`, lines 402-451)

`server skip` models the endpoint's `value` list for the request with
query `$top = page_size, $skip = skip`.  `paginate` returns the pages the
generator yields together with the list of `$skip` offsets it actually
fetched.  The loop is consumer-driven and, for a server that keeps
returning full pages with no cap, unbounded, so the embedding carries
fuel; `fuel = 0` models the consumer abandoning the generator.  The
`@odata.nextLink` branch at client.py:448-451 is a no-op and has no
counterpart here. -/

/-- `items = items[:remaining]` with `remaining = max_items - collected`
(client.py:436-438); in every reachable loop state `collected ≤ max_items`,
so the Python slice argument is never negative and equals `Nat` take. -/
def truncToQuota {α : Type} (max_items : Option Nat) (collected : Nat)
    (items : List α) : List α :=
  match max_items with
  | some m => items.take (m - collected)
  | none => items

/-- The two `break` conditions checked after `collected += len(items)`
(client.py:444-447): quota reached, or short page. -/
def pagerStop {α : Type} (max_items : Option Nat) (page_size collected : Nat)
    (items : List α) : Bool :=
  (match max_items with
   | some m => decide (m ≤ collected + items.length)
   | none => false) || decide (items.length < page_size)

def paginateAux {α : Type} (server : Nat → List α) (page_size : Nat)
    (max_items : Option Nat) : Nat → Nat → Nat → List (List α) × List Nat
  | 0, _, _ => ([], [])
  | fuel + 1, skip, collected =>
      if (server skip).isEmpty then ([], [skip])
      else
        if pagerStop max_items page_size collected
            (truncToQuota max_items collected (server skip)) then
          ([truncToQuota max_items collected (server skip)], [skip])
        else
          (truncToQuota max_items collected (server skip) ::
            (paginateAux server page_size max_items fuel (skip + page_size)
              (collected + (truncToQuota max_items collected (server skip)).length)).1,
           skip ::
            (paginateAux server page_size max_items fuel (skip + page_size)
              (collected + (truncToQuota max_items collected (server skip)).length)).2)

/-- `UiPathClient.paginate` (client.py:402-451): `skip = 0`, `collected = 0`. -/
def paginate {α : Type} (server : Nat → List α) (page_size : Nat)
    (max_items : Option Nat) (fuel : Nat) : List (List α) × List Nat :=
  paginateAux server page_size max_items fuel 0 0

/-- Total number of items across the yielded pages. -/
def pagesTotal {α : Type} (pages : List (List α)) : Nat :=
  (pages.map List.length).sum

lemma paginateAux_fetches_arith {α : Type} (server : Nat → List α)
    (page_size : Nat) (max_items : Option Nat) :
    ∀ (fuel skip collected : Nat), ∃ k,
      (paginateAux server page_size max_items fuel skip collected).2 =
        (List.range k).map (fun j => skip + j * page_size) := by
  intro fuel
  induction fuel with
  | zero => intro skip collected; exact ⟨0, rfl⟩
  | succ f ih =>
      intro skip collected
      rw [paginateAux]
      by_cases hemp : (server skip).isEmpty
      · refine ⟨1, ?_⟩
        simp [hemp, List.range_succ]
      · by_cases hstop : pagerStop max_items page_size collected
            (truncToQuota max_items collected (server skip)) = true
        · refine ⟨1, ?_⟩
          simp [hemp, hstop, List.range_succ]
        · obtain ⟨k, hk⟩ := ih (skip + page_size)
            (collected + (truncToQuota max_items collected (server skip)).length)
          refine ⟨k + 1, ?_⟩
          simp only [hemp, hstop, if_false, Bool.false_eq_true]
          rw [hk, List.range_succ_eq_map, List.map_cons, List.map_map]
          congr 1
          · omega
          · apply List.map_congr_left
            intro j _
            simp only [Function.comp_apply, Nat.succ_eq_add_one]
            ring

lemma paginateAux_total_le {α : Type} (server : Nat → List α)
    (page_size m : Nat) :
    ∀ (fuel skip collected : Nat),
      pagesTotal (paginateAux server page_size (some m) fuel skip collected).1 ≤
        m - collected := by
  intro fuel
  induction fuel with
  | zero => intro skip collected; simp [paginateAux, pagesTotal]
  | succ f ih =>
      intro skip collected
      rw [paginateAux]
      by_cases hemp : (server skip).isEmpty
      · simp [hemp, pagesTotal]
      · have hlen : (truncToQuota (some m) collected (server skip)).length ≤ m - collected := by
          simp [truncToQuota]
        by_cases hstop : pagerStop (some m) page_size collected
            (truncToQuota (some m) collected (server skip)) = true
        · simpa [hemp, hstop, pagesTotal] using hlen
        · have hrec := ih (skip + page_size)
            (collected + (truncToQuota (some m) collected (server skip)).length)
          simp only [hemp, hstop, if_false, Bool.false_eq_true, pagesTotal,
            List.map_cons, List.sum_cons]
          simp only [pagesTotal] at hrec
          omega

lemma paginateAux_fetch_count {α : Type} (server : Nat → List α)
    (page_size : Nat) (max_items : Option Nat) :
    ∀ (fuel skip collected : Nat),
      (paginateAux server page_size max_items fuel skip collected).2.length ≤
        (paginateAux server page_size max_items fuel skip collected).1.length + 1 := by
  intro fuel
  induction fuel with
  | zero => intro skip collected; simp [paginateAux]
  | succ f ih =>
      intro skip collected
      rw [paginateAux]
      by_cases hemp : (server skip).isEmpty
      · simp [hemp]
      · by_cases hstop : pagerStop max_items page_size collected
            (truncToQuota max_items collected (server skip)) = true
        · simp [hemp, hstop]
        · have hrec := ih (skip + page_size)
            (collected + (truncToQuota max_items collected (server skip)).length)
          simp only [hemp, hstop, if_false, Bool.false_eq_true, List.length_cons]
          omega

/-- The claim's concrete server: 25 items in pages of at most 10
(sizes 10, 10, 5 at offsets 0, 10, 20). -/
def pager3Server (skip : Nat) : List Nat :=
  List.range' skip (min 10 (25 - skip))

/-- C9: the Pager fetches at offsets `0, pageSize, 2*pageSize, ...`
(the fetch log is always a prefix of that arithmetic progression); an
empty first page stops the generator with nothing yielded after that one
fetch; with `maxItems = m` set the total number of items yielded never
exceeds `m`; at most one fetch is issued beyond the yielded pages; and on
the concrete page sizes [10, 10, 5] with `pageSize = 10` it yields exactly
3 pages totaling 25 items with fetches at offsets 0, 10, 20 only — no
trailing empty-page fetch. -/
theorem paginate_contract :
    (∀ (α : Type) (server : Nat → List α) (page_size : Nat)
        (max_items : Option Nat) (fuel : Nat), ∃ k,
      (paginate server page_size max_items fuel).2 =
        (List.range k).map (fun j => j * page_size))
    ∧ (∀ (α : Type) (server : Nat → List α) (page_size : Nat)
        (max_items : Option Nat) (fuel : Nat), server 0 = [] → 0 < fuel →
      (paginate server page_size max_items fuel).1 = []
      ∧ (paginate server page_size max_items fuel).2 = [0])
    ∧ (∀ (α : Type) (server : Nat → List α) (page_size m fuel : Nat),
      pagesTotal (paginate server page_size (some m) fuel).1 ≤ m)
    ∧ (∀ (α : Type) (server : Nat → List α) (page_size : Nat)
        (max_items : Option Nat) (fuel : Nat),
      (paginate server page_size max_items fuel).2.length ≤
        (paginate server page_size max_items fuel).1.length + 1)
    ∧ ((paginate pager3Server 10 none 10).1 =
        [List.range' 0 10, List.range' 10 10, List.range' 20 5]
      ∧ (paginate pager3Server 10 none 10).2 = [0, 10, 20]
      ∧ pagesTotal (paginate pager3Server 10 none 10).1 = 25) := by
  refine ⟨?_, ?_, ?_, ?_, by decide, by decide, by decide⟩
  · intro α server page_size max_items fuel
    obtain ⟨k, hk⟩ := paginateAux_fetches_arith server page_size max_items fuel 0 0
    exact ⟨k, by simpa [paginate] using hk⟩
  · intro α server page_size max_items fuel hserver hfuel
    obtain ⟨f, rfl⟩ : ∃ f, fuel = f + 1 := ⟨fuel - 1, by omega⟩
    constructor <;> simp [paginate, paginateAux, hserver]
  · intro α server page_size m fuel
    simpa using paginateAux_total_le server page_size m fuel 0 0
  · intro α server page_size max_items fuel
    exact paginateAux_fetch_count server page_size max_items fuel 0 0

/-- Witness for C9: the universally quantified parts applied at the
concrete servers of the claim's scenario. -/
theorem paginate_contract_witness :
    (∃ k, (paginate pager3Server 10 none 10).2 = (List.range k).map (fun j => j * 10))
    ∧ ((paginate (fun _ => ([] : List Nat)) 10 none 5).1 = []
      ∧ (paginate (fun _ => ([] : List Nat)) 10 none 5).2 = [0])
    ∧ pagesTotal (paginate pager3Server 10 (some 7) 10).1 ≤ 7
    ∧ (paginate pager3Server 10 none 10).2.length ≤
        (paginate pager3Server 10 none 10).1.length + 1
    ∧ (paginate pager3Server 10 none 10).2 = [0, 10, 20] :=
  ⟨paginate_contract.1 Nat pager3Server 10 none 10,
   paginate_contract.2.1 Nat (fun _ => []) 10 none 5 rfl (by omega),
   paginate_contract.2.2.1 Nat pager3Server 10 7 10,
   paginate_contract.2.2.2.1 Nat pager3Server 10 none 10,
   paginate_contract.2.2.2.2.2.1⟩

/-- C10 counterexample: with `max_items = 0` and a non-empty first server
page, `paginate` yields a single *empty* page (`items[:0]` is yielded
before the quota break is checked), so "every page yielded by paginate is
non-empty" fails. -/
theorem paginate_empty_page_counterexample :
    (paginate (fun _ => [(0 : Nat)]) 10 (some 0) 3).1 = [[]] := by decide

/-- C10 amended: provided the server honours the requested `$top` bound
(every fetched page has at most `page_size` items) and `max_items`, when
set, is positive, every yielded page is non-empty with at most `page_size`
items, and the cumulative item count never exceeds `max_items`. -/
theorem paginate_page_invariants
    {α : Type} (server : Nat → List α) (page_size : Nat)
    (max_items : Option Nat) (fuel : Nat)
    (hserver : ∀ s, (server s).length ≤ page_size)
    (hpos : max_items ≠ some 0) :
    (∀ pg ∈ (paginate server page_size max_items fuel).1,
      pg ≠ [] ∧ pg.length ≤ page_size)
    ∧ (∀ m, max_items = some m →
      pagesTotal (paginate server page_size max_items fuel).1 ≤ m) := by
  constructor
  · have key : ∀ (fuel skip collected : Nat),
        (max_items = none ∨ ∃ m, max_items = some m ∧ collected < m) →
        ∀ pg ∈ (paginateAux server page_size max_items fuel skip collected).1,
          pg ≠ [] ∧ pg.length ≤ page_size := by
      intro fuel
      induction fuel with
      | zero => intro skip collected _ pg hpg; simp [paginateAux] at hpg
      | succ f ih =>
          intro skip collected hcol pg hpg
          rw [paginateAux] at hpg
          by_cases hemp : (server skip).isEmpty
          · simp [hemp] at hpg
          · have hitems : truncToQuota max_items collected (server skip) ≠ []
                ∧ (truncToQuota max_items collected (server skip)).length ≤ page_size := by
              have hne : server skip ≠ [] := by
                simpa [List.isEmpty_iff] using hemp
              rcases hcol with hnone | ⟨m, hm, hlt⟩
              · subst hnone
                exact ⟨hne, hserver skip⟩
              · subst hm
                refine ⟨?_, ?_⟩
                · simp only [truncToQuota, ne_eq, List.take_eq_nil_iff]
                  push_neg
                  exact ⟨by omega, hne⟩
                · simp only [truncToQuota, List.length_take]
                  exact le_trans (min_le_right _ _) (hserver skip)
            by_cases hstop : pagerStop max_items page_size collected
                (truncToQuota max_items collected (server skip)) = true
            · simp only [hemp, if_false, hstop, if_true, List.mem_singleton,
                Bool.false_eq_true] at hpg
              exact hpg ▸ hitems
            · simp only [hemp, hstop, if_false, Bool.false_eq_true,
                List.mem_cons] at hpg
              rcases hpg with rfl | hpg
              · exact hitems
              · refine ih (skip + page_size) _ ?_ pg hpg
                rcases hcol with hnone | ⟨m, hm, _⟩
                · exact Or.inl hnone
                · refine Or.inr ⟨m, hm, ?_⟩
                  subst hm
                  simp only [pagerStop, Bool.or_eq_true, decide_eq_true_eq] at hstop
                  push_neg at hstop
                  omega
    intro pg hpg
    refine key fuel 0 0 ?_ pg hpg
    cases hmi : max_items with
    | none => exact Or.inl rfl
    | some m =>
        refine Or.inr ⟨m, rfl, ?_⟩
        rcases Nat.eq_zero_or_pos m with rfl | hm
        · exact absurd hmi hpos
        · exact hm
  · intro m hm
    subst hm
    simpa using paginateAux_total_le server page_size m fuel 0 0

/-- Witness for C10's amended theorem: the [10, 10, 5] server with a quota
of 7 yields non-empty pages of at most 10 items totaling at most 7. -/
theorem paginate_page_invariants_witness :
    (∀ pg ∈ (paginate pager3Server 10 (some 7) 10).1,
      pg ≠ [] ∧ pg.length ≤ 10)
    ∧ (∀ m, (some 7 : Option Nat) = some m →
      pagesTotal (paginate pager3Server 10 (some 7) 10).1 ≤ m) :=
  paginate_page_invariants pager3Server 10 (some 7) 10
    (fun s => by simp [pager3Server]) (by simp)

/-! ## Tool-handler failure boundary (`tools/queues.py`, `list_queues`,
lines 27-44, representative of every tool handler)

Each handler's body runs inside `try: ... except UiPathError as e: return
json.dumps(e.to_dict())`.  The exceptions a client call can raise are those
established for `_request` above (`ReqOutcome`'s failure cases) plus
`UiPathAuthError` from token acquisition.  A handler's result is either a
returned payload (modelled as the JSON value passed to `json.dumps`,
parseable by construction) or an exception crossing the tool-invocation
boundary.  `Queue.model_validate(...).model_dump()` is abstracted as the
identity reshaping of each element of `data["value"]`. -/

inductive Json where
  | null
  | nat (n : Nat)
  | str (s : String)
  | arr (xs : List Json)
  | obj (fields : List (String × Json))
  deriving Repr

def optNatJson : Option Nat → Json
  | some n => .nat n
  | none => .null

def optStrJson : Option String → Json
  | some s => .str s
  | none => .null

/-- `UiPathError.to_dict` (client.py:55-62). -/
def UiPathError.to_dict (e : UiPathError) : Json :=
  .obj [("error", .str e.message),
        ("status_code", optNatJson e.status_code),
        ("error_code", optStrJson e.error_code),
        ("detail", optStrJson e.detail),
        ("endpoint", optStrJson e.endpoint)]

/-- Exceptions a `st.client` call can raise into a tool handler. -/
inductive ClientExc where
  | uipathErr (e : UiPathError)
  | uipathAuthErr
  | rawHttpStatusErr (status : Nat)
  | rawTimeout
  | rawConnectErr
  deriving Repr, DecidableEq

/-- `d.get(k)` on a JSON object. -/
def jsonGet (j : Json) (k : String) : Option Json :=
  match j with
  | .obj fields => (fields.find? (fun p => p.1 == k)).map Prod.snd
  | _ => none

def jsonArrLen : Option Json → Nat
  | some (.arr xs) => xs.length
  | _ => 0

/-- `list_queues` (queues.py:27-44), as a function of the outcome of
`st.client.get("QueueDefinitions", ...)`.  Only `UiPathError` is caught;
any other exception matches no `except` clause and crosses the tool
boundary. -/
def list_queues (clientResult : Except ClientExc Json) : Except ClientExc Json :=
  match clientResult with
  | .ok data =>
      .ok (.obj
        [("total_count",
          (jsonGet data "@odata.count").getD
            (.nat (jsonArrLen (jsonGet data "value")))),
         ("queues", (jsonGet data "value").getD (.arr []))])
  | .error (.uipathErr e) => .ok e.to_dict
  | .error exc => .error exc

/-- C4 counterexample: an authentication failure (`UiPathAuthError`, which
is not a subclass of `UiPathError`) raised by the client call propagates
past the tool-invocation boundary of `list_queues` instead of being
returned as a JSON error payload. -/
theorem list_queues_auth_error_propagates :
    list_queues (.error .uipathAuthErr) = .error ClientExc.uipathAuthErr := rfl

/-- C4 amended: a tool handler returns a parseable JSON payload on success
and on every failure surfaced as the structured `UiPathError` (the payload
being exactly `e.to_dict()`, carrying message, status code, error code,
detail and endpoint); but failures surfaced as `UiPathAuthError` or as raw
transport exceptions (which `_request` lets escape, see C2/C3) match no
`except` clause and propagate past the tool-invocation boundary
unchanged. -/
theorem tool_boundary_error_payload :
    (∀ e : UiPathError, list_queues (.error (.uipathErr e)) = .ok e.to_dict)
    ∧ (∀ exc : ClientExc, (∀ e, exc ≠ .uipathErr e) →
        list_queues (.error exc) = .error exc)
    ∧ (∀ data : Json, ∃ payload, list_queues (.ok data) = .ok payload) := by
  refine ⟨fun e => rfl, ?_, fun data => ⟨_, rfl⟩⟩
  intro exc h
  cases exc with
  | uipathErr e => exact absurd rfl (h e)
  | uipathAuthErr => rfl
  | rawHttpStatusErr st => rfl
  | rawTimeout => rfl
  | rawConnectErr => rfl

/-- Witness for C4's amended theorem: a concrete `UiPathError` becomes its
JSON dict, and a concrete raw timeout propagates. -/
theorem tool_boundary_error_payload_witness :
    list_queues (.error (.uipathErr { message := "Resource not found: u" })) =
      .ok (UiPathError.to_dict { message := "Resource not found: u" })
    ∧ list_queues (.error .rawTimeout) = .error ClientExc.rawTimeout :=
  ⟨tool_boundary_error_payload.1 { message := "Resource not found: u" },
   tool_boundary_error_payload.2.1 .rawTimeout (fun e h => by cases h)⟩

end UiPathMCP
